import Mathlib

/-!
Verification of the cross-dialect SQL type system
(`crates/dbt-xdbc/src/sql/types.rs`): tokenizer, parser, renderer and
metadata bridge, embedded shallowly as executable Lean definitions.
-/

set_option maxRecDepth 10000

/-- Lowercase a single ASCII letter, mirroring Rust byte-wise ASCII lowering. -/
def asciiLowerChar (c : Char) : Char :=
  if 'A' ≤ c && c ≤ 'Z' then Char.ofNat (c.toNat + 32) else c

/-- Case-insensitive ASCII string equality, mirroring `eqi` /
`str::eq_ignore_ascii_case` in the source. -/
def eqi (a b : String) : Bool :=
  a.data.map asciiLowerChar == b.data.map asciiLowerChar

/-- Modelled from the spec: the `Backend` enum (spec section 3, "Dialect")
lives outside the provided source slice.  It identifies the SQL backend;
`Generic` carries an opaque library name and optional entry point. -/
inductive Backend where
  | Postgres
  | Redshift
  | RedshiftODBC
  | Snowflake
  | BigQuery
  | Databricks
  | DatabricksODBC
  | Salesforce
  | Generic (library_name : String) (entrypoint : Option String)
  deriving DecidableEq, Repr

/-- Modelled from the spec: the tokenizer's token kinds (spec section 4.1);
`tokenizer.rs` is outside the provided source slice.  A quoted run is a
single `Word` retaining the surrounding quote characters. -/
inductive Token where
  | Word (w : String)
  | LParen
  | RParen
  | LBracket
  | RBracket
  | LAngle
  | RAngle
  | Comma
  deriving DecidableEq, Repr

/-- Modelled from the spec: token equality as used by the parser's
`expect`/`match_` helpers.  Keyword matching is case-insensitive for word
tokens (spec section 8, "Case insensitivity"; the source's tests compare
e.g. `Token::Word("TIME")` against input spelled `time`). -/
def tokenEq (a b : Token) : Bool :=
  match a, b with
  | .Word x, .Word y => eqi x y
  | .LParen, .LParen => true
  | .RParen, .RParen => true
  | .LBracket, .LBracket => true
  | .RBracket, .RBracket => true
  | .LAngle, .LAngle => true
  | .RAngle, .RAngle => true
  | .Comma, .Comma => true
  | _, _ => false

/-- Modelled from the spec: display form of a token, used when gathering
the `Other(..)` tail and in `Unexpected` error messages. -/
def tokenDisplay (t : Token) : String :=
  match t with
  | .Word w => w
  | .LParen => "("
  | .RParen => ")"
  | .LBracket => "["
  | .RBracket => "]"
  | .LAngle => "<"
  | .RAngle => ">"
  | .Comma => ","

def quoteDouble : Char := Char.ofNat 34

def quoteSingle : Char := Char.ofNat 39

def quoteBacktick : Char := Char.ofNat 96

def isQuoteChar (c : Char) : Bool :=
  c == quoteDouble || c == quoteSingle || c == quoteBacktick

def isPunctChar (c : Char) : Bool :=
  c == '(' || c == ')' || c == '[' || c == ']' || c == '<' || c == '>' || c == ','

def punctToken (c : Char) : Token :=
  if c == '(' then .LParen
  else if c == ')' then .RParen
  else if c == '[' then .LBracket
  else if c == ']' then .RBracket
  else if c == '<' then .LAngle
  else if c == '>' then .RAngle
  else .Comma

/-- Modelled from the spec: scan the remainder of a quoted word after its
opening quote.  Embedded doubled quote characters are escapes and are kept
verbatim; the closing quote is included.  An unterminated quoted word is
returned as a partial token (spec section 4.1, error conditions). -/
def scanQuoted (q : Char) : List Char → (List Char × List Char)
  | [] => ([], [])
  | [c] => ([c], [])
  | c :: c2 :: cs =>
    if c == q then
      if c2 == q then
        let (w, r) := scanQuoted q cs
        (c :: c2 :: w, r)
      else
        ([c], c2 :: cs)
    else
      let (w, r) := scanQuoted q (c2 :: cs)
      (c :: w, r)

/-- Modelled from the spec: a word is a maximal run of non-whitespace,
non-punctuation, non-quote characters (spec section 4.1). -/
def scanWord : List Char → (List Char × List Char)
  | [] => ([], [])
  | c :: cs =>
    if c.isWhitespace || isPunctChar c || isQuoteChar c then ([], c :: cs)
    else
      let (w, r) := scanWord cs
      (c :: w, r)

/-- Modelled from the spec: the tokenizer main loop (spec section 4.1).
Whitespace is skipped; punctuation characters are single tokens; quoted
runs become one `Word` retaining the quotes.  Fuel is bounded by the
input length since every step consumes at least one character. -/
def tokenizeFuel : Nat → List Char → List Token
  | 0, _ => []
  | _, [] => []
  | f + 1, c :: cs =>
    if c.isWhitespace then tokenizeFuel f cs
    else if isPunctChar c then punctToken c :: tokenizeFuel f cs
    else if isQuoteChar c then
      let (w, r) := scanQuoted c cs
      Token.Word (String.mk (c :: w)) :: tokenizeFuel f r
    else
      let (w, r) := scanWord (c :: cs)
      Token.Word (String.mk w) :: tokenizeFuel f r

def tokenize (s : String) : List Token :=
  tokenizeFuel (s.data.length + 1) s.data

/-- Identifier model: `Plain` is an unquoted identifier, `Unquoted` carries
the quote character and the already-unescaped content (spec section 3). -/
inductive Ident where
  | Plain (s : String) : Ident
  | Unquoted (q : Char) (s : String) : Ident
  deriving DecidableEq, Repr

def doubleQuoteChar (q : Char) : List Char → List Char
  | [] => []
  | c :: cs =>
    if c == q then c :: c :: doubleQuoteChar q cs
    else c :: doubleQuoteChar q cs

/-- Modelled from the spec: rendering an identifier (spec sections 2-3;
`ident.rs` is outside the provided source slice).  A plain identifier
renders verbatim; a quoted one re-applies its quote character, doubling
embedded occurrences. -/
def Ident.display (i : Ident) (_backend : Backend) : String :=
  match i with
  | .Plain s => s
  | .Unquoted q s => String.mk (q :: doubleQuoteChar q s.data ++ [q])

/-- DateTimeField mirrors the enum at `types.rs:14`. -/
inductive DateTimeField where
  | Year
  | Month
  | Day
  | Hour
  | Minute
  | Second
  | Millisecond
  | Microsecond
  | Nanosecond
  deriving DecidableEq, Repr

/-- Display form of a date/time field (`types.rs:26-41`). -/
def DateTimeField.displayStr : DateTimeField → String
  | .Year => "YEAR"
  | .Month => "MONTH"
  | .Day => "DAY"
  | .Hour => "HOUR"
  | .Minute => "MINUTE"
  | .Second => "SECOND"
  | .Millisecond => "MILLISECOND"
  | .Microsecond => "MICROSECOND"
  | .Nanosecond => "NANOSECOND"

/-- Dialect-aware rendering of a date/time field (`types.rs:44-69`): the
PostgreSQL family renders sub-second fields as `SECOND(3|6|9)`. -/
def DateTimeField.write (self : DateTimeField) (backend : Backend) : String :=
  match backend with
  | .Postgres | .Redshift | .RedshiftODBC =>
    match self with
    | .Millisecond => "SECOND(3)"
    | .Microsecond => "SECOND(6)"
    | .Nanosecond => "SECOND(9)"
    | _ => self.displayStr
  | _ => self.displayStr

/-- Sub-second precision mapping (`types.rs:71-80`). -/
def DateTimeField.from_precision (p : Nat) : DateTimeField :=
  if p ≤ 2 then .Second
  else if p ≤ 5 then .Millisecond
  else if p ≤ 8 then .Microsecond
  else .Nanosecond

/-- TimeZoneSpec mirrors the enum at `types.rs:84`. -/
inductive TimeZoneSpec where
  | Local
  | With
  | Without
  | Unspecified
  deriving DecidableEq, Repr

/-- Long-form time-zone clause with leading space (`types.rs:96-119`).
The `debug_assert!` calls in the source do not affect output. -/
def TimeZoneSpec.write_with_leading_space (self : TimeZoneSpec) (backend : Backend) : String :=
  match backend, self with
  | .BigQuery, .Without | .BigQuery, .Unspecified => ""
  | .Postgres, .Without | .Redshift, .Without | .RedshiftODBC, .Without => ""
  | _, .Local => " WITH LOCAL TIME ZONE"
  | _, .With => " WITH TIME ZONE"
  | _, .Without => " WITHOUT TIME ZONE"
  | _, .Unspecified => ""

/-- Single-token time-zone suffix (`types.rs:121-169`). -/
def TimeZoneSpec.write_single_token_suffix (self : TimeZoneSpec) (backend : Backend) : String :=
  match backend, self with
  | .BigQuery, _ => ""
  | .Postgres, .Local | .Postgres, .With
  | .Redshift, .Local | .Redshift, .With
  | .RedshiftODBC, .Local | .RedshiftODBC, .With => "TZ"
  | .Postgres, .Without | .Postgres, .Unspecified
  | .Redshift, .Without | .Redshift, .Unspecified
  | .RedshiftODBC, .Without | .RedshiftODBC, .Unspecified => ""
  | .Databricks, .Local | .Databricks, .Unspecified
  | .DatabricksODBC, .Local | .DatabricksODBC, .Unspecified => ""
  | .Databricks, .Without | .DatabricksODBC, .Without => "_NTZ"
  | .Databricks, .With | .DatabricksODBC, .With => ""
  | _, .Local => "_LTZ"
  | _, .With => "_TZ"
  | _, .Without => "_NTZ"
  | _, .Unspecified => ""

/-- Whether a timestamp with this spec is stored with time-zone semantics
for the given backend (`types.rs:171-192`).  The Snowflake/Unspecified
branch carries a `debug_assert!(false)` flag in the source and yields
`false`. -/
def TimeZoneSpec.is_with_time_zone (self : TimeZoneSpec) (backend : Backend) : Bool :=
  match backend, self with
  | .Databricks, .Unspecified | .Databricks, .With | .Databricks, .Local => true
  | .Snowflake, .Unspecified => false
  | _, .With | _, .Local => true
  | _, .Without | _, .Unspecified => false

/-- SqlType mirrors the enum at `types.rs:202-280`.  Scales are signed. -/
inductive SqlType where
  | Boolean
  | TinyInt
  | SmallInt
  | Integer
  | BigInt
  | Real
  | Float (precision : Option Nat)
  | Double
  | Numeric (ps : Option (Nat × Option Int))
  | BigNumeric (ps : Option (Nat × Option Int))
  | Char (len : Option Nat)
  | Varchar (len : Option Nat)
  | Text
  | Clob
  | Blob
  | Binary
  | Date
  | Time (precision : Option Nat) (time_zone_spec : TimeZoneSpec)
  | Timestamp (precision : Option Nat) (time_zone_spec : TimeZoneSpec)
  | DateTime
  | Interval (qualifier : Option (DateTimeField × Option DateTimeField))
  | Json
  | Jsonb
  | Geometry
  | Geography
  | Array (inner : Option SqlType)
  | Struct (fields : Option (List (Ident × SqlType × Bool)))
  | Map (kv : Option (SqlType × SqlType))
  | Variant
  | Void
  | Other (s : String)

/-- PostgreSQL family check used by the struct renderer (`types.rs:558,573`). -/
def isPgFamily (b : Backend) : Bool :=
  match b with
  | .Postgres | .Redshift | .RedshiftODBC => true
  | _ => false

def optParen (p : Option Nat) : String :=
  match p with
  | some n => "(" ++ toString n ++ ")"
  | none => ""

mutual

/-- Renderer for SQL types (`SqlType::write`, `types.rs:329-592`), arm for
arm in source order; appending to the output buffer becomes string
concatenation. -/
def SqlType.write (self : SqlType) (backend : Backend) : String :=
  match backend, self with
  | .BigQuery, .Boolean => "BOOL"
  | .BigQuery, .TinyInt | .BigQuery, .SmallInt | .BigQuery, .Integer
  | .BigQuery, .BigInt => "INT64"
  | .BigQuery, .Real | .BigQuery, .Float _ | .BigQuery, .Double => "FLOAT64"
  | .BigQuery, .Char _ | .BigQuery, .Varchar _ | .BigQuery, .Text
  | .BigQuery, .Clob => "STRING"
  | .BigQuery, .Blob | .BigQuery, .Binary => "BYTES"
  | .BigQuery, .Time _ tz => "TIME" ++ tz.write_with_leading_space .BigQuery
  | .BigQuery, .Timestamp _ tz => "TIMESTAMP" ++ tz.write_with_leading_space .BigQuery
  | .Snowflake, .Float _ => "FLOAT"
  | .Snowflake, .Numeric none | .Snowflake, .BigNumeric none => "NUMBER"
  | .Snowflake, .Numeric (some (p, none))
  | .Snowflake, .BigNumeric (some (p, none)) => "NUMBER(" ++ toString p ++ ")"
  | .Snowflake, .Numeric (some (p, some s))
  | .Snowflake, .BigNumeric (some (p, some s)) =>
    "NUMBER(" ++ toString p ++ ", " ++ toString s ++ ")"
  | .Snowflake, .Clob => "TEXT"
  | .Snowflake, .Blob => "BINARY"
  | .Snowflake, .Time p tz =>
    "TIME" ++ optParen p ++
      (match tz with
       | .Unspecified | .Without => ""
       | .Local | .With => tz.write_with_leading_space .Snowflake)
  | .Snowflake, .Timestamp p tz =>
    "TIMESTAMP" ++ tz.write_single_token_suffix .Snowflake ++ optParen p
  | .Snowflake, .DateTime => "TIMESTAMP_NTZ"
  | .Postgres, .TinyInt | .Redshift, .TinyInt | .RedshiftODBC, .TinyInt => "SMALLINT"
  | .Postgres, .Binary | .Postgres, .Blob
  | .Redshift, .Binary | .Redshift, .Blob
  | .RedshiftODBC, .Binary | .RedshiftODBC, .Blob => "BYTEA"
  | .Postgres, .DateTime | .Redshift, .DateTime | .RedshiftODBC, .DateTime => "TIMESTAMP"
  | .Postgres, .Timestamp (some p) tz =>
    "TIMESTAMP(" ++ toString p ++ ")" ++ tz.write_with_leading_space .Postgres
  | .Redshift, .Timestamp (some p) tz =>
    "TIMESTAMP(" ++ toString p ++ ")" ++ tz.write_with_leading_space .Redshift
  | .RedshiftODBC, .Timestamp (some p) tz =>
    "TIMESTAMP(" ++ toString p ++ ")" ++ tz.write_with_leading_space .RedshiftODBC
  | .Postgres, .Timestamp none tz => "TIMESTAMP" ++ tz.write_single_token_suffix .Postgres
  | .Redshift, .Timestamp none tz => "TIMESTAMP" ++ tz.write_single_token_suffix .Redshift
  | .RedshiftODBC, .Timestamp none tz =>
    "TIMESTAMP" ++ tz.write_single_token_suffix .RedshiftODBC
  | .Postgres, .Float _ | .Redshift, .Float _ | .RedshiftODBC, .Float _ => "REAL"
  | .Postgres, .Clob | .Redshift, .Clob | .RedshiftODBC, .Clob => "TEXT"
  | .Postgres, .Array (some inner) => inner.write .Postgres ++ "[]"
  | .Redshift, .Array (some inner) => inner.write .Redshift ++ "[]"
  | .RedshiftODBC, .Array (some inner) => inner.write .RedshiftODBC ++ "[]"
  | .Databricks, .Binary | .Databricks, .Blob
  | .DatabricksODBC, .Binary | .DatabricksODBC, .Blob => "BINARY"
  | .Databricks, .Clob | .Databricks, .Text | .Databricks, .Varchar _
  | .DatabricksODBC, .Clob | .DatabricksODBC, .Text
  | .DatabricksODBC, .Varchar _ => "STRING"
  | .Databricks, .Numeric none | .Databricks, .BigNumeric none
  | .DatabricksODBC, .Numeric none | .DatabricksODBC, .BigNumeric none => "DECIMAL"
  | .Databricks, .Numeric (some (p, none)) | .Databricks, .BigNumeric (some (p, none))
  | .DatabricksODBC, .Numeric (some (p, none))
  | .DatabricksODBC, .BigNumeric (some (p, none)) => "DECIMAL(" ++ toString p ++ ")"
  | .Databricks, .Numeric (some (p, some s)) | .Databricks, .BigNumeric (some (p, some s))
  | .DatabricksODBC, .Numeric (some (p, some s))
  | .DatabricksODBC, .BigNumeric (some (p, some s)) =>
    "DECIMAL(" ++ toString p ++ ", " ++ toString s ++ ")"
  | .Databricks, .Real | .Databricks, .Float _
  | .DatabricksODBC, .Real | .DatabricksODBC, .Float _ => "FLOAT"
  | .Databricks, .Double | .DatabricksODBC, .Double => "DOUBLE"
  | .Databricks, .DateTime | .DatabricksODBC, .DateTime => "TIMESTAMP_NTZ"
  | .Databricks, .Timestamp _ tz =>
    "TIMESTAMP" ++ tz.write_single_token_suffix .Databricks
  | .DatabricksODBC, .Timestamp _ tz =>
    "TIMESTAMP" ++ tz.write_single_token_suffix .DatabricksODBC
  | _, .Boolean => "BOOLEAN"
  | _, .TinyInt => "TINYINT"
  | _, .SmallInt => "SMALLINT"
  | _, .Integer => "INT"
  | _, .BigInt => "BIGINT"
  | _, .Real => "REAL"
  | _, .Float (some p) => "FLOAT(" ++ toString p ++ ")"
  | _, .Float none => "FLOAT"
  | _, .Double => "DOUBLE PRECISION"
  | _, .Numeric none => "NUMERIC"
  | _, .Numeric (some (p, none)) => "NUMERIC(" ++ toString p ++ ")"
  | _, .Numeric (some (p, some s)) => "NUMERIC(" ++ toString p ++ ", " ++ toString s ++ ")"
  | _, .BigNumeric none => "BIGNUMERIC"
  | _, .BigNumeric (some (p, none)) => "BIGNUMERIC(" ++ toString p ++ ")"
  | _, .BigNumeric (some (p, some s)) =>
    "BIGNUMERIC(" ++ toString p ++ ", " ++ toString s ++ ")"
  | _, .Char none => "CHAR"
  | _, .Char (some len) => "CHAR" ++ (if len > 0 then "(" ++ toString len ++ ")" else "")
  | _, .Varchar none => "VARCHAR"
  | _, .Varchar (some len) =>
    "VARCHAR" ++ (if len > 0 then "(" ++ toString len ++ ")" else "")
  | _, .Text => "TEXT"
  | _, .Clob => "CLOB"
  | _, .Blob => "BLOB"
  | _, .Binary => "BINARY"
  | _, .Date => "DATE"
  | b, .Time p tz =>
    (match p with
     | some n => "TIME(" ++ toString n ++ ")"
     | none => "TIME") ++ tz.write_with_leading_space b
  | _, .DateTime => "DATETIME"
  | b, .Timestamp p tz =>
    (match p with
     | some n => "TIMESTAMP(" ++ toString n ++ ")"
     | none => "TIMESTAMP") ++ tz.write_with_leading_space b
  | b, .Interval q =>
    (match q with
     | none => "INTERVAL"
     | some (start, some e) => "INTERVAL " ++ start.displayStr ++ " TO " ++ e.write b
     | some (start, none) => "INTERVAL " ++ start.write b)
  | _, .Json => "JSON"
  | _, .Jsonb => "JSONB"
  | _, .Geometry => "GEOMETRY"
  | _, .Geography => "GEOGRAPHY"
  | _, .Array none => "ARRAY"
  | b, .Array (some inner) => "ARRAY<" ++ inner.write b ++ ">"
  | _, .Struct none => "STRUCT"
  | b, .Struct (some fields) =>
    if isPgFamily b then "(" ++ writeStructFieldList b fields ++ ")"
    else "STRUCT<" ++ writeStructFieldList b fields ++ ">"
  | _, .Map none => "MAP"
  | b, .Map (some (k, v)) => "MAP<" ++ k.write b ++ ", " ++ v.write b ++ ">"
  | _, .Variant => "VARIANT"
  | _, .Void => "VOID"
  | _, .Other s => s

/-- Struct field rendering loop inside `SqlType::write` (`types.rs:563-572`):
comma-separated `name type [NOT NULL]` entries. -/
def writeStructFieldList (b : Backend) (fields : List (Ident × SqlType × Bool)) : String :=
  match fields with
  | [] => ""
  | (name, ty, nullable) :: rest =>
    (name.display b ++ " " ++ ty.write b ++ (if nullable then "" else " NOT NULL")) ++
      (match rest with
       | [] => ""
       | _ => ", " ++ writeStructFieldList b rest)

end

/-- Full canonical rendering (`SqlType::to_string`, `types.rs:322-326`). -/
def SqlType.to_string (self : SqlType) (backend : Backend) : String :=
  self.write backend

/-- ParseError mirrors the enum at `types.rs:797-804`; the int-parse
variant carries the underlying error's display text. -/
inductive ParseError where
  | UnexpectedEndOfInput
  | Unexpected (t : Token)
  | ParseIntErr (msg : String)
  | UnclosedQuote (c : Char)
  | ExpectedDateTimeField
  deriving DecidableEq, Repr

/-- Display form of a parse error (`types.rs:808-823`). -/
def ParseError.message : ParseError → String
  | .UnexpectedEndOfInput => "unexpected end of input"
  | .Unexpected t => "unexpected token: " ++ tokenDisplay t
  | .ParseIntErr msg => msg
  | .UnclosedQuote c => String.mk [quoteSingle, c, quoteSingle] ++ " is not closed"
  | .ExpectedDateTimeField => "expected a date/time field (e.g. YEAR, DAY, SECOND, etc.)"

def digitsToNat? : List Char → Option Nat
  | [] => none
  | cs =>
    if cs.all (fun c => c.isDigit) then
      some (cs.foldl (fun acc c => acc * 10 + (c.toNat - 48)) 0)
    else none

/-- Decimal digits of an unsigned integer, with Rust's optional leading
plus sign (`str::parse` for unsigned types). -/
def wordToNat? (w : String) : Option Nat :=
  match w.data with
  | [] => none
  | c :: cs => if c == '+' then digitsToNat? cs else digitsToNat? (c :: cs)

/-- Signed variant of [wordToNat?] (`str::parse` for signed types). -/
def wordToInt? (w : String) : Option Int :=
  match w.data with
  | [] => none
  | c :: cs =>
    if c == '+' then (digitsToNat? cs).map Int.ofNat
    else if c == '-' then (digitsToNat? cs).map (fun n => -(Int.ofNat n))
    else (digitsToNat? (c :: cs)).map Int.ofNat

def usizeMax : Nat := 18446744073709551615

/-- Unescape rules for quoted identifiers (`_unescape_quoted_ident`,
`types.rs:872-897`): the PostgreSQL family collapses doubled double
quotes; any dialect collapses doubled single quotes; otherwise the inner
text is verbatim. -/
def collapseDoubled (q : Char) : List Char → List Char
  | [] => []
  | [c] => [c]
  | c :: c2 :: cs =>
    if c == q && c2 == q then c :: collapseDoubled q cs
    else c :: collapseDoubled q (c2 :: cs)

def unescape_quoted_ident (word : String) (q : Char) (backend : Backend) : String :=
  let inner := (word.data.drop 1).dropLast
  if isPgFamily backend && q == quoteDouble then String.mk (collapseDoubled q inner)
  else if q == quoteSingle then String.mk (collapseDoubled q inner)
  else String.mk inner

/-- Convert a word token to an identifier (`word2ident`, `types.rs:837-865`):
quoted words must begin and end with the same quote character. -/
def word2ident (backend : Backend) (word : String) : Except ParseError Ident :=
  match word.data with
  | [] => .error .UnexpectedEndOfInput
  | first :: rest =>
    if isQuoteChar first then
      let open_ended := match rest.getLast? with
        | some b => b != first
        | none => true
      if open_ended then .error (.UnclosedQuote first)
      else .ok (.Unquoted first (unescape_quoted_ident word first backend))
    else .ok (.Plain word)

/-- Token-stream step (`Parser::next`, `types.rs:915-919`). -/
def Parser.next (ts : List Token) : Except ParseError (Token × List Token) :=
  match ts with
  | [] => .error .UnexpectedEndOfInput
  | t :: r => .ok (t, r)

/-- Expect an exact token (`Parser::expect`, `types.rs:921-928`). -/
def Parser.expect (expected : Token) (ts : List Token) : Except ParseError (List Token) := do
  let (tok, r) ← Parser.next ts
  if tokenEq tok expected then .ok r else .error (.Unexpected tok)

/-- Conditionally consume a matching token (`Parser::match_`,
`types.rs:930-932`). -/
def Parser.match_tok (pat : Token) (ts : List Token) : Bool × List Token :=
  match ts with
  | t :: r => if tokenEq t pat then (true, r) else (false, ts)
  | [] => (false, ts)

def Parser.match_word (w : String) (ts : List Token) : Bool × List Token :=
  Parser.match_tok (.Word w) ts

/-- Parse the next token as an unsigned integer with the given type bound
(`Parser::next_int`, `types.rs:938-949`). -/
def Parser.next_int_nat (bound : Nat) (ts : List Token) :
    Except ParseError (Nat × List Token) := do
  let (tok, r) ← Parser.next ts
  match tok with
  | .Word w =>
    match wordToNat? w with
    | some n =>
      if n ≤ bound then .ok (n, r)
      else .error (.ParseIntErr "number too large to fit in target type")
    | none => .error (.ParseIntErr "invalid digit found in string")
  | _ => .error (.Unexpected tok)

/-- Signed variant of [Parser.next_int_nat] for `i8` scales. -/
def Parser.next_int_int (lo hi : Int) (ts : List Token) :
    Except ParseError (Int × List Token) := do
  let (tok, r) ← Parser.next ts
  match tok with
  | .Word w =>
    match wordToInt? w with
    | some n =>
      if n < lo then .error (.ParseIntErr "number too small to fit in target type")
      else if hi < n then .error (.ParseIntErr "number too large to fit in target type")
      else .ok (n, r)
    | none => .error (.ParseIntErr "invalid digit found in string")
  | _ => .error (.Unexpected tok)

/-- Optional parenthesized integer (`Parser::precision`, `types.rs:954-965`). -/
def Parser.precision (bound : Nat) (ts : List Token) :
    Except ParseError (Option Nat × List Token) :=
  match Parser.match_tok .LParen ts with
  | (true, ts1) => do
    let (v, ts2) ← Parser.next_int_nat bound ts1
    let ts3 ← Parser.expect .RParen ts2
    .ok (some v, ts3)
  | (false, _) => .ok (none, ts)

/-- Optional parenthesized precision and scale
(`Parser::precision_and_scale`, `types.rs:967-980`). -/
def Parser.precision_and_scale (ts : List Token) :
    Except ParseError (Option (Nat × Option Int) × List Token) :=
  match Parser.match_tok .LParen ts with
  | (true, ts1) => do
    let (p, ts2) ← Parser.next_int_nat 255 ts1
    match Parser.match_tok .Comma ts2 with
    | (true, ts3) => do
      let (s, ts4) ← Parser.next_int_int (-128) 127 ts3
      let ts5 ← Parser.expect .RParen ts4
      .ok (some (p, some s), ts5)
    | (false, _) => do
      let ts5 ← Parser.expect .RParen ts2
      .ok (some (p, none), ts5)
  | (false, _) => .ok (none, ts)

/-- Time-zone clause sub-grammar (`Parser::time_zone_spec`,
`types.rs:982-999`). -/
def Parser.time_zone_spec (ts : List Token) :
    Except ParseError (TimeZoneSpec × List Token) :=
  match Parser.match_word "WITH" ts with
  | (true, ts1) => do
    let (loc, ts2) := Parser.match_word "LOCAL" ts1
    let ts3 ← Parser.expect (.Word "TIME") ts2
    let ts4 ← Parser.expect (.Word "ZONE") ts3
    .ok (if loc then TimeZoneSpec.Local else TimeZoneSpec.With, ts4)
  | (false, _) =>
    match Parser.match_word "WITHOUT" ts with
    | (true, ts1) => do
      let ts3 ← Parser.expect (.Word "TIME") ts1
      let ts4 ← Parser.expect (.Word "ZONE") ts3
      .ok (TimeZoneSpec.Without, ts4)
    | (false, _) => .ok (TimeZoneSpec.Unspecified, ts)

def dtfOfWord (w : String) : Option DateTimeField :=
  if eqi w "YEAR" then some .Year
  else if eqi w "MONTH" then some .Month
  else if eqi w "DAY" then some .Day
  else if eqi w "HOUR" then some .Hour
  else if eqi w "MINUTE" then some .Minute
  else if eqi w "SECOND" then some .Second
  else if eqi w "MILLISECOND" then some .Millisecond
  else if eqi w "MICROSECOND" then some .Microsecond
  else if eqi w "NANOSECOND" then some .Nanosecond
  else none

/-- Peek a date/time field word, consuming it on success
(`Parser::datetime_field`, `types.rs:1001-1030`). -/
def Parser.datetime_field (ts : List Token) : Option DateTimeField × List Token :=
  match ts with
  | .Word w :: r =>
    match dtfOfWord w with
    | some f => (some f, r)
    | none => (none, ts)
  | _ => (none, ts)

/-- Interval qualifier sub-grammar (`Parser::interval_qualifier`,
`types.rs:1032-1049`). -/
def Parser.interval_qualifier (ts : List Token) :
    Except ParseError (Option (DateTimeField × Option DateTimeField) × List Token) :=
  match Parser.datetime_field ts with
  | (some start, ts1) =>
    match Parser.match_word "TO" ts1 with
    | (true, ts2) =>
      match Parser.datetime_field ts2 with
      | (some e, ts3) => .ok (some (start, some e), ts3)
      | (none, _) => .error .ExpectedDateTimeField
    | (false, _) => .ok (some (start, none), ts1)
  | (none, _) => .ok (none, ts)

/-- Nullability suffix sub-grammar (`Parser::nullable`,
`types.rs:1051-1060`). -/
def Parser.nullable (ts : List Token) : Except ParseError (Option Bool × List Token) :=
  match Parser.match_word "NOT" ts with
  | (true, ts1) => do
    let ts2 ← Parser.expect (.Word "NULL") ts1
    .ok (some false, ts2)
  | (false, _) =>
    match Parser.match_word "NULLABLE" ts with
    | (true, ts1) => .ok (some true, ts1)
    | (false, _) => .ok (none, ts)

/-- Tail-gathering loop of the `Other(..)` fallback (`types.rs:1423-1437`):
append tokens, space-separated, until `NOT` or `NULL` (case-insensitive). -/
def Parser.other_tail (acc : String) : List Token → String × List Token
  | [] => (acc, [])
  | t :: r =>
    if tokenEq t (.Word "NOT") || tokenEq t (.Word "NULL") then (acc, t :: r)
    else Parser.other_tail (acc ++ " " ++ tokenDisplay t) r

/-- Postfix `[]` array loop in `Parser::parse_unconstrained_type`
(`types.rs:1133-1138`). -/
def Parser.array_suffix (t : SqlType) : List Token → Except ParseError (SqlType × List Token)
  | [] => .ok (t, [])
  | l :: rest =>
    if tokenEq l .LBracket then
      match rest with
      | [] => .error .UnexpectedEndOfInput
      | rb :: rest2 =>
        if tokenEq rb .RBracket then Parser.array_suffix (.Array (some t)) rest2
        else .error (.Unexpected rb)
    else .ok (t, l :: rest)

/-- Backends with the postfix-`[]` array and parenthesized-struct grammar
(`types.rs:1133,1168`). -/
def isPgOrGeneric (b : Backend) : Bool :=
  match b with
  | .Postgres | .Redshift | .RedshiftODBC | .Generic _ _ => true
  | _ => false

mutual

/-- Keyword dispatch and type grammar (`Parser::parse_inner`,
`types.rs:1157-1470`), if-chain in source order.  Fuel bounds the mutual
recursion; a fuel of zero reports end of input (never reached from the
public entry point, whose fuel exceeds any possible recursion depth). -/
def Parser.parse_inner : Nat → Backend → List Token → Except ParseError (SqlType × List Token)
  | 0, _, _ => .error .UnexpectedEndOfInput
  | f + 1, backend, ts0 => do
    let (tok, ts) ← Parser.next ts0
    match tok with
    | .LParen =>
      if isPgOrGeneric backend then do
        let (fields, ts1) ← Parser.struct_fields f backend .RParen ts
        .ok (.Struct (some fields), ts1)
      else .error (.Unexpected tok)
    | .RParen | .LBracket | .RBracket | .LAngle | .RAngle | .Comma =>
      .error (.Unexpected tok)
    | .Word w =>
      if eqi w "BOOLEAN" || eqi w "BOOL" then .ok (.Boolean, ts)
      else if eqi w "TINYINT" || eqi w "BYTEINT" then .ok (.TinyInt, ts)
      else if eqi w "SMALLINT" || (eqi w "INT2" || eqi w "SMALLSERIAL" || eqi w "SERIAL2") then
        .ok (.SmallInt, ts)
      else if eqi w "INTEGER" || eqi w "INT" || eqi w "INT4" || eqi w "SERIAL"
          || eqi w "SERIAL4" then
        .ok (.Integer, ts)
      else if eqi w "BIGINT" || eqi w "INT64" || eqi w "INT8" || eqi w "BIGSERIAL"
          || eqi w "SERIAL8" then
        .ok (.BigInt, ts)
      else if eqi w "REAL" then .ok (.Real, ts)
      else if eqi w "FLOAT" then do
        let (p, ts1) ← Parser.precision 255 ts
        .ok (.Float p, ts1)
      else if eqi w "FLOAT4" then
        .ok (if isPgFamily backend then (.Real, ts) else (.Float none, ts))
      else if eqi w "FLOAT8" || eqi w "FLOAT64" then .ok (.Double, ts)
      else if eqi w "DOUBLE" then
        .ok (.Double, (Parser.match_word "PRECISION" ts).2)
      else if eqi w "DECIMAL" || eqi w "NUMERIC" || eqi w "NUMBER" then do
        let (ps, ts1) ← Parser.precision_and_scale ts
        .ok (.Numeric ps, ts1)
      else if eqi w "BIGDECIMAL" || eqi w "BIGNUMERIC" then do
        let (ps, ts1) ← Parser.precision_and_scale ts
        .ok (.BigNumeric ps, ts1)
      else if eqi w "CHAR" || eqi w "CHARACTER" || eqi w "NCHAR" then
        match Parser.match_word "LARGE" ts with
        | (true, ts1) => do
          let ts2 ← Parser.expect (.Word "OBJECT") ts1
          .ok (.Clob, ts2)
        | (false, _) => do
          let (varying, ts1) := Parser.match_word "VARYING" ts
          let (len, ts2) ← Parser.precision usizeMax ts1
          .ok (if varying then (.Varchar len, ts2) else (.Char len, ts2))
      else if eqi w "VARCHAR" || eqi w "NVARCHAR" then do
        let (len, ts1) ← Parser.precision usizeMax ts
        .ok (.Varchar len, ts1)
      else if eqi w "NATIONAL" then do
        let ts1 ← Parser.expect (.Word "CHAR") ts
        let (varying, ts2) := Parser.match_word "VARYING" ts1
        let (len, ts3) ← Parser.precision usizeMax ts2
        .ok (if varying then (.Varchar len, ts3) else (.Char len, ts3))
      else if eqi w "STRING" then .ok (.Varchar none, ts)
      else if eqi w "TEXT" then .ok (.Text, ts)
      else if eqi w "CLOB" then .ok (.Clob, ts)
      else if eqi w "BLOB" then .ok (.Blob, ts)
      else if eqi w "BINARY" then
        match Parser.match_word "LARGE" ts with
        | (true, ts1) => do
          let ts2 ← Parser.expect (.Word "OBJECT") ts1
          .ok (.Blob, ts2)
        | (false, _) => .ok (.Binary, ts)
      else if eqi w "VARBINARY" || eqi w "BYTES" || eqi w "BYTEA" then .ok (.Binary, ts)
      else if eqi w "DATE" then .ok (.Date, ts)
      else if eqi w "TIME" then do
        let (p, ts1) ← Parser.precision 255 ts
        let (tz, ts2) ← Parser.time_zone_spec ts1
        .ok (.Time p (match tz with
          | .Unspecified => .Without
          | _ => tz), ts2)
      else if eqi w "TIMETZ" then .ok (.Time none .With, ts)
      else if eqi w "TIMESTAMP" then do
        let (p, ts1) ← Parser.precision 255 ts
        let (tz, ts2) ← Parser.time_zone_spec ts1
        .ok (.Timestamp p tz, ts2)
      else if eqi w "TIMESTAMPTZ" then .ok (.Timestamp none .With, ts)
      else if eqi w "TIMESTAMP_NTZ" then do
        let (p, ts1) ← Parser.precision 255 ts
        .ok (.Timestamp p .Without, ts1)
      else if eqi w "DATETIME" then do
        let (p, ts1) ← Parser.precision 255 ts
        if backend == .Snowflake then .ok (.Timestamp p .Without, ts1)
        else .ok (.DateTime, ts1)
      else if eqi w "TIMESTAMP_TZ" then do
        let (p, ts1) ← Parser.precision 255 ts
        .ok (.Timestamp p .With, ts1)
      else if eqi w "INTERVAL" then do
        let (q, ts1) ← Parser.interval_qualifier ts
        match q with
        | some (start, none) =>
          match start with
          | .Second => do
            let (p, ts2) ← Parser.precision 255 ts1
            .ok (.Interval (match p with
              | some n => some (DateTimeField.from_precision n, none)
              | none => some (start, none)), ts2)
          | _ => .ok (.Interval (some (start, none)), ts1)
        | some (start, some e) =>
          match e with
          | .Second => do
            let (p, ts2) ← Parser.precision 255 ts1
            .ok (.Interval (match p with
              | some n => some (start, some (DateTimeField.from_precision n))
              | none => some (start, some e)), ts2)
          | _ => .ok (.Interval (some (start, some e)), ts1)
        | none => do
          let (p, ts2) ← Parser.precision 255 ts1
          .ok (.Interval (p.map (fun n => (DateTimeField.from_precision n, none))), ts2)
      else if eqi w "JSON" then .ok (.Json, ts)
      else if eqi w "JSONB" then .ok (.Jsonb, ts)
      else if eqi w "GEOMETRY" then .ok (.Geometry, ts)
      else if eqi w "GEOGRAPHY" then .ok (.Geography, ts)
      else if eqi w "ARRAY" then
        match Parser.match_tok .LAngle ts with
        | (true, ts1) => do
          let (inner, ts2) ← Parser.parse_unconstrained_type f backend ts1
          let ts3 ← Parser.expect .RAngle ts2
          .ok (.Array (some inner), ts3)
        | (false, _) => .ok (.Array none, ts)
      else if eqi w "STRUCT" then
        match Parser.match_tok .LAngle ts with
        | (true, ts1) => do
          let (fields, ts2) ← Parser.struct_fields f backend .RAngle ts1
          .ok (.Struct (some fields), ts2)
        | (false, _) => .ok (.Struct none, ts)
      else if eqi w "MAP" then
        match Parser.match_tok .LAngle ts with
        | (true, ts1) => do
          let (k, ts2) ← Parser.parse_unconstrained_type f backend ts1
          let ts3 ← Parser.expect .Comma ts2
          let (v, ts4) ← Parser.parse_unconstrained_type f backend ts3
          let ts5 ← Parser.expect .RAngle ts4
          .ok (.Map (some (k, v)), ts5)
        | (false, _) => .ok (.Map none, ts)
      else if eqi w "VARIANT" then .ok (.Variant, ts)
      else if eqi w "VOID" then .ok (.Void, ts)
      else
        let (other, ts1) := Parser.other_tail w ts
        .ok (.Other other, ts1)

/-- Unconstrained type with the postfix-`[]` loop on the PostgreSQL family
and `Generic` (`Parser::parse_unconstrained_type`, `types.rs:1126-1140`). -/
def Parser.parse_unconstrained_type : Nat → Backend → List Token →
    Except ParseError (SqlType × List Token)
  | 0, _, _ => .error .UnexpectedEndOfInput
  | f + 1, backend, ts => do
    let (t, ts1) ← Parser.parse_inner f backend ts
    if isPgOrGeneric backend then Parser.array_suffix t ts1
    else .ok (t, ts1)

/-- Type followed by an optional nullability constraint
(`Parser::parse_constrained_type`, `types.rs:1109-1116`). -/
def Parser.parse_constrained_type : Nat → Backend → List Token →
    Except ParseError ((SqlType × Option Bool) × List Token)
  | 0, _, _ => .error .UnexpectedEndOfInput
  | f + 1, backend, ts => do
    let (t, ts1) ← Parser.parse_unconstrained_type f backend ts
    let (nb, ts2) ← Parser.nullable ts1
    .ok ((t, nb), ts2)

/-- Struct field list after `(` or `STRUCT<` (`Parser::struct_fields`,
`types.rs:1075-1106`); a field without a suffix defaults to nullable. -/
def Parser.struct_fields : Nat → Backend → Token → List Token →
    Except ParseError (List (Ident × SqlType × Bool) × List Token)
  | 0, _, _, _ => .error .UnexpectedEndOfInput
  | f + 1, backend, terminator, ts0 => do
    let (tok, ts) ← Parser.next ts0
    if tokenEq tok terminator then .ok ([], ts)
    else
      match tok with
      | .Word w => do
        let name ← word2ident backend w
        let ((ty, nb), ts1) ← Parser.parse_constrained_type f backend ts
        let field := (name, ty, nb.getD true)
        let (tok2, ts2) ← Parser.next ts1
        if tokenEq tok2 .Comma then do
          let (rest, ts3) ← Parser.struct_fields f backend terminator ts2
          .ok (field :: rest, ts3)
        else if tokenEq tok2 terminator then .ok ([field], ts2)
        else .error (.Unexpected tok2)
      | _ => .error (.Unexpected tok)

end

/-- Top-level token-stream parse (`Parser::parse`, `types.rs:1121-1124`):
nullability defaults to `true`, and remaining tokens are ignored. -/
def Parser.parse (fuel : Nat) (backend : Backend) (ts : List Token) :
    Except ParseError (SqlType × Bool) := do
  let ((t, nb), _) ← Parser.parse_constrained_type fuel backend ts
  .ok (t, nb.getD true)

/-- String-level public entry point (`SqlType::parse`, `types.rs:315-320`):
tokenize, parse, and wrap errors with the original input.  The fuel is
ample: the mutual parser recursion descends at most four levels per
consumed token. -/
def SqlType.parse (backend : Backend) (input : String) : Except String (SqlType × Bool) :=
  let ts := tokenize input
  match Parser.parse (4 * ts.length + 8) backend ts with
  | .ok r => .ok r
  | .error e =>
    .error ("Failed to parse SQL type '" ++ input ++ "': " ++ e.message)

/-- TimeUnit mirrors `arrow_schema::TimeUnit`. -/
inductive TimeUnit where
  | Second
  | Millisecond
  | Microsecond
  | Nanosecond
  deriving DecidableEq, Repr

/-- IntervalUnit mirrors `arrow_schema::IntervalUnit`. -/
inductive IntervalUnit where
  | YearMonth
  | DayTime
  | MonthDayNano
  deriving DecidableEq, Repr

mutual

/-- DataType mirrors the `arrow_schema::DataType` constructors consumed by
`SqlType::_from_arrow_type`; payloads irrelevant to that function (union
fields, map sortedness) are omitted. -/
inductive DataType where
  | Null
  | Boolean
  | Int8
  | Int16
  | Int32
  | Int64
  | UInt8
  | UInt16
  | UInt32
  | UInt64
  | Float16
  | Float32
  | Float64
  | Decimal128 (p : Nat) (s : Int)
  | Decimal256 (p : Nat) (s : Int)
  | Utf8
  | Utf8View
  | LargeUtf8
  | Binary
  | LargeBinary
  | BinaryView
  | FixedSizeBinary (n : Nat)
  | Date32
  | Date64
  | Time32 (unit : TimeUnit)
  | Time64 (unit : TimeUnit)
  | Timestamp (unit : TimeUnit) (tz : Option String)
  | Duration (unit : TimeUnit)
  | Interval (unit : IntervalUnit)
  | List (field : ArrowField)
  | LargeList (field : ArrowField)
  | ListView (field : ArrowField)
  | LargeListView (field : ArrowField)
  | FixedSizeList (field : ArrowField) (n : Nat)
  | Struct (fields : List ArrowField)
  | Union
  | Map (field : ArrowField) (sorted : Bool)
  | Dictionary (key : DataType) (value : DataType)
  | RunEndEncoded (run_ends : ArrowField) (values : ArrowField)

/-- ArrowField mirrors `arrow_schema::Field`: a name, a physical type, a
nullability flag and a string-to-string metadata map (kept as an
association list). -/
inductive ArrowField where
  | mk (name : String) (dataType : DataType) (nullable : Bool)
      (metadata : List (String × String))

end

def ArrowField.name : ArrowField → String
  | .mk n _ _ _ => n

def ArrowField.dataType : ArrowField → DataType
  | .mk _ d _ _ => d

def ArrowField.is_nullable : ArrowField → Bool
  | .mk _ _ nb _ => nb

def ArrowField.metadata : ArrowField → List (String × String)
  | .mk _ _ _ m => m

mutual

/-- Best-effort Arrow-to-SQL mapping (`SqlType::_from_arrow_type`,
`types.rs:600-748`).  The `todo!()` arm for durations and the
`unreachable!()` arm for invalid time units are modelled as `none`
(a panic: no value is produced). -/
def SqlType.from_arrow_type (backend : Backend) : DataType → Option SqlType
  | .Null => some (.Varchar none)
  | .Boolean => some .Boolean
  | .Int8 | .UInt8 | .Int16 => some .SmallInt
  | .UInt16 | .Int32 => some .Integer
  | .UInt32 | .Int64 | .UInt64 => some .BigInt
  | .Float16 | .Float32 => some .Real
  | .Float64 => some .Double
  | .Decimal128 p s | .Decimal256 p s => some (.Numeric (some (p, some s)))
  | .Utf8View | .Utf8 => some (.Varchar none)
  | .LargeUtf8 => some .Text
  | .Binary | .LargeBinary | .BinaryView | .FixedSizeBinary _ => some .Binary
  | .Date32 | .Date64 => some .Date
  | .Time32 .Second => some (.Time none .Without)
  | .Time32 .Millisecond => some (.Time (some 3) .Without)
  | .Time64 .Microsecond => some (.Time (some 6) .Without)
  | .Time64 .Nanosecond => some (.Time (some 9) .Without)
  | .Time32 _ | .Time64 _ => none
  | .Timestamp .Second tz =>
    some (.Timestamp none (if tz.isSome then .With else .Without))
  | .Timestamp .Millisecond tz =>
    some (.Timestamp (some 3) (if tz.isSome then .With else .Without))
  | .Timestamp .Microsecond tz =>
    some (.Timestamp (some 6) (if tz.isSome then .With else .Without))
  | .Timestamp .Nanosecond tz =>
    some (.Timestamp (some 9) (if tz.isSome then .With else .Without))
  | .Duration _ => none
  | .Interval .YearMonth => some (.Interval (some (.Year, some .Month)))
  | .Interval .DayTime => some (.Interval (some (.Day, some .Millisecond)))
  | .Interval .MonthDayNano => some (.Interval (some (.Month, some .Nanosecond)))
  | .List _ | .LargeList _ | .ListView _ | .LargeListView _ => some (.Array none)
  | .FixedSizeList _ _ => some (.Other "ARRAY")
  | .Struct fields => do
    let sql_fields ← SqlType.from_arrow_fields backend fields
    some (.Struct (some sql_fields))
  | .Union => some (.Other "UNION")
  | .Map _ _ => some (.Map none)
  | .Dictionary _ value => SqlType.from_arrow_type backend value
  | .RunEndEncoded _ (.mk _ valuesType _ _) => SqlType.from_arrow_type backend valuesType

/-- Struct-field loop inside `_from_arrow_type` (`types.rs:728-740`): each
child converts recursively; a panic in any child propagates. -/
def SqlType.from_arrow_fields (backend : Backend) :
    List ArrowField → Option (List (Ident × SqlType × Bool))
  | [] => some []
  | .mk nm dt nb _ :: rest => do
    let sql_type ← SqlType.from_arrow_type backend dt
    let tail ← SqlType.from_arrow_fields backend rest
    some ((.Plain nm, sql_type, nb) :: tail)

end

/-- Unimplemented SQL-to-Arrow physical type choice
(`SqlType::_pick_best_arrow_type`, `types.rs:750-752`): the body is
`todo!()`, so every call panics; modelled as `none`. -/
def SqlType.pick_best_arrow_type (_self : SqlType) (_backend : Backend) : Option DataType :=
  none

def POSTGRES_KEYS : List String := ["POSTGRES:type", "type"]

def SNOWFLAKE_KEYS : List String := ["SNOWFLAKE:type", "type"]

def BIGQUERY_KEYS : List String := ["BIGQUERY:type", "type"]

def DATABRICKS_KEYS : List String := ["DBX:type", "type_text", "type"]

def REDSHIFT_KEYS : List String := ["REDSHIFT:type", "type"]

def GENERIC_KEYS : List String := ["SQL:type", "type"]

/-- Ordered metadata keys consulted per backend
(`metadata_type_candidate_keys`, `types.rs:770-780`). -/
def metadata_type_candidate_keys (backend : Backend) : List String :=
  match backend with
  | .Postgres | .Salesforce => POSTGRES_KEYS
  | .Snowflake => SNOWFLAKE_KEYS
  | .BigQuery => BIGQUERY_KEYS
  | .Databricks => DATABRICKS_KEYS
  | .Redshift | .RedshiftODBC => REDSHIFT_KEYS
  | .DatabricksODBC => DATABRICKS_KEYS
  | .Generic _ _ => GENERIC_KEYS

/-- Write-side metadata key (`metadata_key`, `types.rs:782-784`): the first
candidate. -/
def metadata_key (backend : Backend) : String :=
  (metadata_type_candidate_keys backend).headD ""

def lookupMeta (m : List (String × String)) (k : String) : Option String :=
  (m.find? (fun p => p.1 == k)).map (fun p => p.2)

/-- First metadata hit among the backend's candidate keys
(`type_string_from_field`, `types.rs:787-791`). -/
def type_string_from_field (backend : Backend) (field : ArrowField) : Option String :=
  (metadata_type_candidate_keys backend).findSome? (fun k => lookupMeta field.metadata k)

/-- Extract a SQL type and nullability from an Arrow field
(`SqlType::from_field`, `types.rs:288-301`).  The outer `Option` models
panics escaping from `_from_arrow_type`; the inner `Except` is the Rust
`Result`. -/
def SqlType.from_field (backend : Backend) (field : ArrowField) :
    Option (Except String (SqlType × Bool)) :=
  match type_string_from_field backend field with
  | some type_str =>
    match SqlType.parse backend type_str with
    | .ok (sql_type, nullable) => some (.ok (sql_type, nullable || field.is_nullable))
    | .error e => some (.error e)
  | none =>
    match SqlType.from_arrow_type backend field.dataType with
    | some sql_type => some (.ok (sql_type, field.is_nullable))
    | none => none

/-- Convert a SQL type to an Arrow field (`SqlType::to_field`,
`types.rs:307-312`): pick a physical type, then attach the rendered type
string under the backend's write key.  The `Option` models the panic of
the unimplemented `_pick_best_arrow_type`. -/
def SqlType.to_field (self : SqlType) (backend : Backend) (name : String)
    (nullable : Bool) : Option ArrowField :=
  match self.pick_best_arrow_type backend with
  | some data_type =>
    some (.mk name data_type nullable [(metadata_key backend, self.to_string backend)])
  | none => none

/-- Canonical matrix of SQL types exercised by the source's round-trip test
(`expected_type_rendering_for`, `types.rs:1759-2318`, first column). -/
def canonicalMatrix : List SqlType :=
  [ .Boolean
  , .TinyInt
  , .SmallInt
  , .Integer
  , .BigInt
  , .Real
  , .Float none
  , .Float (some 3)
  , .Double
  , .Numeric none
  , .Numeric (some (20, none))
  , .Numeric (some (60, some 2))
  , .Varchar none
  , .Varchar (some 255)
  , .Text
  , .Clob
  , .Blob
  , .Binary
  , .Date
  , .Time none .Without
  , .Time (some 0) .Without
  , .Time (some 5) .Without
  , .Time (some 9) .Without
  , .Time (some 9) .With
  , .DateTime
  , .Timestamp none .Without
  , .Timestamp none .With
  , .Timestamp (some 3) .Without
  , .Timestamp (some 3) .With
  , .Interval none
  , .Interval (some (.Second, none))
  , .Interval (some (.Millisecond, none))
  , .Interval (some (.Day, some .Microsecond))
  , .Interval (some (.Year, none))
  , .Interval (some (.Day, some .Hour))
  , .Interval (some (.Day, some .Minute))
  , .Interval (some (.Day, some .Second))
  , .Interval (some (.Hour, some .Minute))
  , .Interval (some (.Hour, some .Second))
  , .Interval (some (.Minute, some .Second))
  , .Interval (some (.Month, some .Day))
  , .Interval (some (.Month, some .Hour))
  , .Interval (some (.Month, some .Minute))
  , .Interval (some (.Month, some .Second))
  , .Interval (some (.Year, some .Day))
  , .Interval (some (.Year, some .Hour))
  , .Interval (some (.Year, some .Minute))
  , .Interval (some (.Year, some .Month))
  , .Interval (some (.Year, some .Second))
  , .Array (some .Json)
  , .Struct (some [(.Plain "a", .Float none, true)])
  , .Struct (some [(.Plain "name", .Varchar none, true), (.Plain "age", .Integer, false)])
  , .Struct (some
      [ (.Plain "last_completion_time", .Timestamp none .Without, true)
      , (.Plain "error_time", .Timestamp none .Without, true)
      , (.Plain "error", .Struct (some
          [ (.Plain "reason", .Varchar none, true)
          , (.Plain "location", .Varchar none, true)
          , (.Plain "message", .Varchar none, true)
          ]), true)
      ])
  , .Array (some (.Struct (some
      [(.Plain "date", .Date, true), (.Plain "value", .Varchar none, true)])))
  , .Struct (some
      [ (.Plain "elements", .Array (some (.Struct (some
          [(.Plain "date", .Date, true), (.Plain "value", .Varchar none, true)]))), true)
      ])
  , .Map (some (.Varchar none, .Integer))
  , .Variant
  , .Void
  , .Other "ANY OTHER TYPE"
  ]

/-- Supported dialects iterated by the source's round-trip test
(`backends()`, `types.rs:1726-1739`). -/
def supportedDialects : List Backend :=
  [ .Postgres
  , .Snowflake
  , .BigQuery
  , .Databricks
  , .DatabricksODBC
  , .RedshiftODBC
  , .Generic "generic" none
  ]

/-- Round-trip check for one type and dialect: parsing the rendered form
succeeds and the result renders to the same string. -/
def roundtripOK (b : Backend) (t : SqlType) : Bool :=
  match SqlType.parse b (t.to_string b) with
  | .ok (t2, _) => t2.to_string b == t.to_string b
  | .error _ => false

/-- Trailing-whitespace check for one type and dialect: appending spaces to
the rendered form still parses, renders identically; the parsed
nullability stays at the default `true`. -/
def trailingWsOK (b : Backend) (t : SqlType) : Bool :=
  match SqlType.parse b (t.to_string b ++ "   ") with
  | .ok (t2, nb) => (t2.to_string b == t.to_string b) && nb
  | .error _ => false

/-- Head of the token stream is neither a `NOT` nor a `NULLABLE` word
(case-insensitively), i.e. no nullability suffix starts here. -/
def headNotNullSuffix : List Token → Prop
  | .Word w :: _ => eqi w "NOT" = false ∧ eqi w "NULLABLE" = false
  | _ => True

/-- Evaluation of `Parser.precision` on a parenthesized numeric word. -/
theorem precision_of_word (w : String) (p : Nat) (rest : List Token)
    (hw : wordToNat? w = some p) (hp : p ≤ 255) :
    Parser.precision 255 (Token.LParen :: .Word w :: .RParen :: rest) = .ok (some p, rest) := by
  have hint : Parser.next_int_nat 255 (.Word w :: .RParen :: rest) = .ok (p, .RParen :: rest) := by
    show (match wordToNat? w with
      | some n =>
        if n ≤ 255 then Except.ok (n, Token.RParen :: rest)
        else Except.error (ParseError.ParseIntErr "number too large to fit in target type")
      | none => Except.error (ParseError.ParseIntErr "invalid digit found in string")) = _
    rw [hw]
    exact if_pos hp
  show (do
    let (v, a) ← Parser.next_int_nat 255 (.Word w :: .RParen :: rest)
    let a2 ← Parser.expect .RParen a
    Except.ok ((some v : Option Nat), a2)) = _
  rw [hint]
  rfl

/-- C1: for every `SqlType` in the canonical matrix and every supported
dialect, `SqlType.parse` succeeds on the rendered string and returns a
type that renders identically, i.e. the round-trip law holds under the
dialect's render-equality equivalence. -/
theorem C1_round_trip_law :
    supportedDialects.all (fun b => canonicalMatrix.all (roundtripOK b)) = true := by
  decide

/-- C2: `SqlType.to_field` never returns a field: its physical-type choice
`_pick_best_arrow_type` is an unimplemented `todo!()`, so every call
panics (modelled as `none`) before any metadata can be attached. -/
theorem C2_to_field_unimplemented :
    ∀ (t : SqlType) (b : Backend) (name : String) (nullable : Bool),
      t.to_field b name nullable = none :=
  fun _ _ _ _ => rfl

/-- C3 counterexample: `INT` is a recognized (non-Other) type and `BOOL` is
unconsumed non-whitespace input after it, yet `SqlType.parse` succeeds
instead of returning a `ParseError`. -/
theorem C3_counterexample :
    SqlType.parse (.Generic "generic" none) "INT BOOL" = .ok (.Integer, true) := rfl

/-- C3 (amended): trailing whitespace after a parsed type is ignored and is
not an error; but unconsumed non-whitespace is not an error either — the
parser never checks that the input is exhausted, so a recognized type
followed by leftover tokens still parses successfully. -/
theorem C3_trailing_input_ignored :
    (supportedDialects.all (fun b => canonicalMatrix.all (trailingWsOK b)) = true)
    ∧ SqlType.parse .BigQuery "INT64 garbage" = .ok (.BigInt, true) := by
  exact ⟨by decide, rfl⟩

/-- C4: `SqlType.from_field` parses the first metadata hit with the dialect
parser and ORs the parsed nullability with the field's physical
nullability; a malformed metadata string propagates the parse error with
no fallback; with no metadata hit it maps the physical type and keeps the
field's nullability. -/
theorem C4_from_field_metadata_bridge :
    ∀ (b : Backend) (f : ArrowField) (s : String),
      (type_string_from_field b f = some s →
        SqlType.from_field b f
          = some ((SqlType.parse b s).map (fun r => (r.1, r.2 || f.is_nullable))))
      ∧ (∀ e, type_string_from_field b f = some s → SqlType.parse b s = .error e →
          SqlType.from_field b f = some (.error e))
      ∧ (type_string_from_field b f = none →
          SqlType.from_field b f
            = (SqlType.from_arrow_type b f.dataType).map
                (fun t => .ok (t, f.is_nullable))) := by
  intro b f s
  refine ⟨?_, ?_, ?_⟩
  · intro h
    unfold SqlType.from_field
    rw [h]
    cases hp : SqlType.parse b s with
    | ok r => cases r with
      | mk t nb => simp [hp, Except.map]
    | error e => simp [hp, Except.map]
  · intro e h hp
    unfold SqlType.from_field
    rw [h]
    simp [hp]
  · intro h
    unfold SqlType.from_field
    rw [h]
    cases ha : SqlType.from_arrow_type b f.dataType with
    | some t => simp [ha, Option.map]
    | none => simp [ha, Option.map]

/-- C4 witness: the three branches at concrete fields — a metadata hit with
a well-formed string, a metadata hit with a malformed (empty) string, and
no metadata hit. -/
theorem C4_witness :
    SqlType.from_field .Snowflake (.mk "c" .Int32 false [("type", "INT")])
      = some (.ok (.Integer, true))
    ∧ SqlType.from_field .Snowflake (.mk "c" .Int32 true [("type", "")])
      = some (.error "Failed to parse SQL type '': unexpected end of input")
    ∧ SqlType.from_field .Snowflake (.mk "c" .Boolean false [])
      = some (.ok (.Boolean, false)) := by
  refine ⟨?_, ?_, ?_⟩
  · exact (C4_from_field_metadata_bridge .Snowflake (.mk "c" .Int32 false [("type", "INT")])
      "INT").1 rfl
  · exact (C4_from_field_metadata_bridge .Snowflake (.mk "c" .Int32 true [("type", "")])
      "").2.1 "Failed to parse SQL type '': unexpected end of input" rfl rfl
  · exact (C4_from_field_metadata_bridge .Snowflake (.mk "c" .Boolean false [])
      "").2.2 rfl

/-- C5: parsing `TIME` with no explicit time-zone clause (the clause
sub-parser yields `Unspecified`) normalizes the spec to `Without`, while
parsing `TIMESTAMP` under the same conditions preserves `Unspecified`. -/
theorem C5_time_zone_normalization :
    ∀ (f : Nat) (b : Backend) (ts ts2 ts3 : List Token) (p : Option Nat),
      Parser.precision 255 ts = .ok (p, ts2) →
      Parser.time_zone_spec ts2 = .ok (.Unspecified, ts3) →
      Parser.parse_inner (f + 1) b (Token.Word "TIME" :: ts) = .ok (.Time p .Without, ts3)
      ∧ Parser.parse_inner (f + 1) b (Token.Word "TIMESTAMP" :: ts)
          = .ok (.Timestamp p .Unspecified, ts3) := by
  intro f b ts ts2 ts3 p h1 h2
  constructor
  · show (do
      let (pp, ts4) ← Parser.precision 255 ts
      let (tz, ts5) ← Parser.time_zone_spec ts4
      Except.ok (SqlType.Time pp (match tz with
        | .Unspecified => .Without
        | _ => tz), ts5)) = _
    rw [h1]
    show (do
      let (tz, ts5) ← Parser.time_zone_spec ts2
      Except.ok (SqlType.Time p (match tz with
        | .Unspecified => .Without
        | _ => tz), ts5)) = _
    rw [h2]
    rfl
  · show (do
      let (pp, ts4) ← Parser.precision 255 ts
      let (tz, ts5) ← Parser.time_zone_spec ts4
      Except.ok (SqlType.Timestamp pp tz, ts5)) = _
    rw [h1]
    show (do
      let (tz, ts5) ← Parser.time_zone_spec ts2
      Except.ok (SqlType.Timestamp p tz, ts5)) = _
    rw [h2]
    rfl

/-- C5 witness: bare `TIME` parses to `Without`, bare `TIMESTAMP` keeps
`Unspecified`. -/
theorem C5_witness :
    Parser.parse_inner 1 .Postgres [Token.Word "TIME"] = .ok (.Time none .Without, [])
    ∧ Parser.parse_inner 1 .Postgres [Token.Word "TIMESTAMP"]
        = .ok (.Timestamp none .Unspecified, []) :=
  C5_time_zone_normalization 0 .Postgres [] [] [] none rfl rfl

/-- C6: the sub-second mapping `{0..2}→Second, {3..5}→Millisecond,
`{6..8}→Microsecond, `{9..}→Nanosecond` is applied to the parses of
`INTERVAL(p)`, `INTERVAL SECOND(p)` and the end field of
`INTERVAL <start> TO SECOND(p)`, for every precision `p` a `u8` parse can
produce. -/
theorem C6_interval_precision_mapping :
    ∀ (f : Nat) (b : Backend) (w : String) (p : Nat) (rest : List Token),
      wordToNat? w = some p → p ≤ 255 →
      (Parser.parse_inner (f + 1) b
          (Token.Word "INTERVAL" :: .LParen :: .Word w :: .RParen :: rest)
        = .ok (.Interval (some (.from_precision p, none)), rest))
      ∧ (Parser.parse_inner (f + 1) b
          (Token.Word "INTERVAL" :: .Word "SECOND" :: .LParen :: .Word w :: .RParen :: rest)
        = .ok (.Interval (some (.from_precision p, none)), rest))
      ∧ (∀ start : DateTimeField, Parser.parse_inner (f + 1) b
          (Token.Word "INTERVAL" :: .Word start.displayStr :: .Word "TO" :: .Word "SECOND"
            :: .LParen :: .Word w :: .RParen :: rest)
        = .ok (.Interval (some (start, some (.from_precision p))), rest))
      ∧ ((p ≤ 2 → DateTimeField.from_precision p = .Second)
        ∧ (3 ≤ p ∧ p ≤ 5 → DateTimeField.from_precision p = .Millisecond)
        ∧ (6 ≤ p ∧ p ≤ 8 → DateTimeField.from_precision p = .Microsecond)
        ∧ (9 ≤ p → DateTimeField.from_precision p = .Nanosecond)) := by
  intro f b w p rest hw hp
  have hprec := precision_of_word w p rest hw hp
  refine ⟨?_, ?_, ?_, ?_, ?_, ?_, ?_⟩
  · show (do
      let (pp, ts2) ← Parser.precision 255 (Token.LParen :: .Word w :: .RParen :: rest)
      Except.ok (SqlType.Interval
        (pp.map (fun n => (DateTimeField.from_precision n, none))), ts2)) = _
    rw [hprec]
    rfl
  · show (do
      let (pp, ts2) ← Parser.precision 255 (Token.LParen :: .Word w :: .RParen :: rest)
      Except.ok (SqlType.Interval (match pp with
        | some n => some (DateTimeField.from_precision n, none)
        | none => some (DateTimeField.Second, none)), ts2)) = _
    rw [hprec]
    rfl
  · intro start
    cases start <;>
    · show (do
        let (pp, ts2) ← Parser.precision 255 (Token.LParen :: .Word w :: .RParen :: rest)
        Except.ok (SqlType.Interval (match pp with
          | some n => some (_, some (DateTimeField.from_precision n))
          | none => some (_, some DateTimeField.Second)), ts2)) = _
      rw [hprec]
      rfl
  · intro h
    unfold DateTimeField.from_precision
    rw [if_pos h]
  · intro h
    unfold DateTimeField.from_precision
    rw [if_neg (by omega), if_pos h.2]
  · intro h
    unfold DateTimeField.from_precision
    rw [if_neg (by omega), if_neg (by omega), if_pos h.2]
  · intro h
    unfold DateTimeField.from_precision
    rw [if_neg (by omega), if_neg (by omega), if_neg (by omega)]

/-- C6 witness: precision 3 maps to `Millisecond` in all three syntactic
positions. -/
theorem C6_witness :
    (Parser.parse_inner 1 .Postgres
        [Token.Word "INTERVAL", .LParen, .Word "3", .RParen]
      = .ok (.Interval (some (.Millisecond, none)), []))
    ∧ (Parser.parse_inner 1 .Postgres
        [Token.Word "INTERVAL", .Word "SECOND", .LParen, .Word "3", .RParen]
      = .ok (.Interval (some (.Millisecond, none)), []))
    ∧ (Parser.parse_inner 1 .Postgres
        [Token.Word "INTERVAL", .Word "DAY", .Word "TO", .Word "SECOND",
          .LParen, .Word "3", .RParen]
      = .ok (.Interval (some (.Day, some .Millisecond)), []))
    ∧ DateTimeField.from_precision 3 = .Millisecond := by
  have h := C6_interval_precision_mapping 0 .Postgres "3" 3 [] rfl (by decide)
  exact ⟨h.1, h.2.1, h.2.2.1 .Day, h.2.2.2.2.1 ⟨by decide, by decide⟩⟩

/-- C7: parsing with no suffix yields nullable `true` (the default), `NOT
NULL` yields `false`, `NULLABLE` yields `true`; the same defaulting
applies to each struct field. -/
theorem C7_nullability_default :
    (∀ r : List Token, Parser.nullable (.Word "NOT" :: .Word "NULL" :: r) = .ok (some false, r))
    ∧ (∀ r : List Token, Parser.nullable (.Word "NULLABLE" :: r) = .ok (some true, r))
    ∧ (∀ ts : List Token, headNotNullSuffix ts → Parser.nullable ts = .ok (none, ts))
    ∧ (∀ (fuel : Nat) (b : Backend) (ts rest rest2 : List Token) (t : SqlType)
        (nb : Option Bool),
        Parser.parse_unconstrained_type fuel b ts = .ok (t, rest) →
        Parser.nullable rest = .ok (nb, rest2) →
        Parser.parse_constrained_type (fuel + 1) b ts = .ok ((t, nb), rest2)
        ∧ Parser.parse (fuel + 1) b ts = .ok (t, nb.getD true))
    ∧ (∀ (fuel : Nat) (b : Backend) (w : String) (i : Ident) (ts rest : List Token)
        (t : SqlType) (nb : Option Bool),
        word2ident b w = .ok i →
        Parser.parse_constrained_type fuel b ts = .ok ((t, nb), .RAngle :: rest) →
        Parser.struct_fields (fuel + 1) b .RAngle (.Word w :: ts)
          = .ok ([(i, t, nb.getD true)], rest)) := by
  refine ⟨fun r => rfl, fun r => rfl, ?_, ?_, ?_⟩
  · intro ts h
    match ts with
    | [] => rfl
    | .Word w :: r =>
      obtain ⟨h1, h2⟩ := h
      show (match Parser.match_word "NOT" (.Word w :: r) with
        | (true, ts1) => do
          let ts2 ← Parser.expect (.Word "NULL") ts1
          Except.ok ((some false : Option Bool), ts2)
        | (false, _) =>
          match Parser.match_word "NULLABLE" (.Word w :: r) with
          | (true, ts1) => Except.ok ((some true : Option Bool), ts1)
          | (false, _) => Except.ok ((none : Option Bool), .Word w :: r)) = _
      have hm1 : Parser.match_word "NOT" (.Word w :: r) = (false, .Word w :: r) := by
        show (if eqi w "NOT" then ((true : Bool), r)
          else ((false : Bool), Token.Word w :: r)) = _
        rw [h1]
        rfl
      have hm2 : Parser.match_word "NULLABLE" (.Word w :: r) = (false, .Word w :: r) := by
        show (if eqi w "NULLABLE" then ((true : Bool), r)
          else ((false : Bool), Token.Word w :: r)) = _
        rw [h2]
        rfl
      rw [hm1, hm2]
    | .LParen :: r => rfl
    | .RParen :: r => rfl
    | .LBracket :: r => rfl
    | .RBracket :: r => rfl
    | .LAngle :: r => rfl
    | .RAngle :: r => rfl
    | .Comma :: r => rfl
  · intro fuel b ts rest rest2 t nb h1 h2
    have hc : Parser.parse_constrained_type (fuel + 1) b ts = .ok ((t, nb), rest2) := by
      show (do
        let (ty, ts1) ← Parser.parse_unconstrained_type fuel b ts
        let (nb2, ts2) ← Parser.nullable ts1
        Except.ok ((ty, nb2), ts2)) = _
      rw [h1]
      show (do
        let (nb2, ts2) ← Parser.nullable rest
        Except.ok ((t, nb2), ts2)) = _
      rw [h2]
      rfl
    refine ⟨hc, ?_⟩
    show (do
      let ((ty, nb2), _) ← Parser.parse_constrained_type (fuel + 1) b ts
      Except.ok (ty, nb2.getD true)) = _
    rw [hc]
    rfl
  · intro fuel b w i ts rest t nb hword hpc
    show (if tokenEq (.Word w) .RAngle then
        Except.ok (([] : List (Ident × SqlType × Bool)), ts)
      else (do
        let name ← word2ident b w
        let ((ty, nb2), ts1) ← Parser.parse_constrained_type fuel b ts
        let field := (name, ty, nb2.getD true)
        let (tok2, ts2) ← Parser.next ts1
        if tokenEq tok2 .Comma then do
          let (restf, ts3) ← Parser.struct_fields fuel b .RAngle ts2
          Except.ok (field :: restf, ts3)
        else if tokenEq tok2 .RAngle then Except.ok ([field], ts2)
        else Except.error (.Unexpected tok2))) = _
    rw [hword]
    show (do
      let ((ty, nb2), ts1) ← Parser.parse_constrained_type fuel b ts
      let field := (i, ty, nb2.getD true)
      let (tok2, ts2) ← Parser.next ts1
      if tokenEq tok2 .Comma then do
        let (restf, ts3) ← Parser.struct_fields fuel b .RAngle ts2
        Except.ok (field :: restf, ts3)
      else if tokenEq tok2 .RAngle then Except.ok ([field], ts2)
      else Except.error (.Unexpected tok2)) = _
    rw [hpc]
    rfl

/-- C7 witness: the suffix grammar and the defaulting at the top level and
inside a struct, at concrete inputs. -/
theorem C7_witness :
    Parser.nullable [Token.Word "NOT", .Word "NULL"] = .ok (some false, [])
    ∧ Parser.nullable [Token.Word "NULLABLE"] = .ok (some true, [])
    ∧ Parser.nullable [Token.Word "x"] = .ok (none, [Token.Word "x"])
    ∧ Parser.parse 3 .BigQuery [Token.Word "INT", .Word "NOT", .Word "NULL"]
        = .ok (.Integer, false)
    ∧ Parser.parse 3 .BigQuery [Token.Word "INT"] = .ok (.Integer, true)
    ∧ Parser.struct_fields 4 .BigQuery .RAngle [Token.Word "a", .Word "INT", .RAngle]
        = .ok ([(.Plain "a", .Integer, true)], []) := by
  refine ⟨C7_nullability_default.1 [], C7_nullability_default.2.1 [],
    C7_nullability_default.2.2.1 [Token.Word "x"] ⟨rfl, rfl⟩, ?_, ?_, ?_⟩
  · exact (C7_nullability_default.2.2.2.1 2 .BigQuery
      [Token.Word "INT", .Word "NOT", .Word "NULL"] [Token.Word "NOT", .Word "NULL"] []
      .Integer (some false) rfl rfl).2
  · exact (C7_nullability_default.2.2.2.1 2 .BigQuery
      [Token.Word "INT"] [] [] .Integer none rfl rfl).2
  · exact C7_nullability_default.2.2.2.2 3 .BigQuery "a" (.Plain "a")
      [Token.Word "INT", .RAngle] [] .Integer none rfl rfl

/-- C8: `is_with_time_zone` is `true` on Databricks for `Unspecified`,
`With` and `Local`; `false` on Snowflake for the ambiguous `Unspecified`;
and otherwise `true` exactly for `With` and `Local`. -/
theorem C8_is_with_time_zone :
    ∀ (b : Backend) (s : TimeZoneSpec),
      (b = .Databricks →
        (s.is_with_time_zone b = true ↔ (s = .Unspecified ∨ s = .With ∨ s = .Local)))
      ∧ (b = .Snowflake → s = .Unspecified → s.is_with_time_zone b = false)
      ∧ (b ≠ .Databricks → ¬(b = .Snowflake ∧ s = .Unspecified) →
          (s.is_with_time_zone b = true ↔ (s = .With ∨ s = .Local))) := by
  intro b s
  cases b <;> cases s <;>
    simp [TimeZoneSpec.is_with_time_zone]

/-- C8 witness: the Databricks default, the Snowflake ambiguous case and a
generic dialect, at concrete inputs. -/
theorem C8_witness :
    TimeZoneSpec.Unspecified.is_with_time_zone .Databricks = true
    ∧ TimeZoneSpec.Unspecified.is_with_time_zone .Snowflake = false
    ∧ TimeZoneSpec.With.is_with_time_zone .Postgres = true
    ∧ TimeZoneSpec.Unspecified.is_with_time_zone .Postgres = false := by
  refine ⟨((C8_is_with_time_zone .Databricks .Unspecified).1 rfl).mpr (Or.inl rfl),
    (C8_is_with_time_zone .Snowflake .Unspecified).2.1 rfl rfl,
    ((C8_is_with_time_zone .Postgres .With).2.2 (by decide) (by simp)).mpr (Or.inl rfl),
    ?_⟩
  have h := (C8_is_with_time_zone .Postgres .Unspecified).2.2 (by decide)
    (by simp)
  simp at h
  exact h

/-- C9: `from_field` is not total: with no metadata hit, a duration
physical type or a 32-bit time with microsecond or nanosecond unit makes
`_from_arrow_type` panic (`todo!` / `unreachable!`), modelled as `none`. -/
theorem C9_from_field_panics :
    ∀ (b : Backend) (f : ArrowField),
      type_string_from_field b f = none →
      ((∃ u, f.dataType = .Duration u)
        ∨ f.dataType = .Time32 .Microsecond
        ∨ f.dataType = .Time32 .Nanosecond) →
      SqlType.from_field b f = none := by
  intro b f hmeta hdt
  unfold SqlType.from_field
  rw [hmeta]
  rcases hdt with ⟨u, hu⟩ | h | h
  · rw [hu]
    cases u <;> rfl
  · rw [h]
    rfl
  · rw [h]
    rfl

/-- C9 witness: a metadata-free duration field makes `from_field` panic. -/
theorem C9_witness :
    SqlType.from_field .Postgres (.mk "d" (.Duration .Millisecond) true []) = none :=
  C9_from_field_panics .Postgres (.mk "d" (.Duration .Millisecond) true []) rfl
    (Or.inl ⟨.Millisecond, rfl⟩)

/-- C10: a zero length is rendered without the parenthesized suffix, so
`Char (some 0)` and `Varchar (some 0)` render exactly like `Char none` and
`Varchar none` on every backend, and the rendered generic forms re-parse
as the length-free types. -/
theorem C10_zero_length_char :
    (∀ b : Backend,
      (SqlType.Char (some 0)).to_string b = (SqlType.Char none).to_string b
      ∧ (SqlType.Varchar (some 0)).to_string b = (SqlType.Varchar none).to_string b)
    ∧ SqlType.parse (.Generic "generic" none)
        ((SqlType.Char (some 0)).to_string (.Generic "generic" none))
        = .ok (.Char none, true)
    ∧ SqlType.parse (.Generic "generic" none)
        ((SqlType.Varchar (some 0)).to_string (.Generic "generic" none))
        = .ok (.Varchar none, true) := by
  refine ⟨fun b => ?_, rfl, rfl⟩
  cases b <;> exact ⟨rfl, rfl⟩
